import Mathlib

/-!
Verification development for the text-to-sql-poc backend.

The definitions below are a shallow embedding of the Python sources:
  * `backend/services/sql_validator.py` (tenant-isolation validator),
  * `backend/services/agentic_text2sql_service.py` (session history,
    query expansion, clarification detector, and the LangGraph workflow),
  * `backend/services/agent_tools.py` (tool envelope behaviour).

Python strings are modelled as `List Char`; the handful of regular
expressions used by the validator are modelled by a small token-list
matcher (`Tok` / `matchToks` / `searchToks`) implementing `re.search`
existence semantics, and a dedicated scanner (`findAllIdsAux`)
implementing the one `re.findall` whose captures the validator consumes.
External collaborators (the text-generation model, the SQLite executor,
dataset configuration) are oracle parameters, as they are outside the
embedded code.
-/

/-- Python `\w` over the ASCII SQL alphabet: letters, digits, underscore. -/
def isWordChar (c : Char) : Bool :=
  c.isAlpha || c.isDigit || c = '_'

/-- Python `\s` / `str.split()` whitespace. -/
def isPySpace (c : Char) : Bool :=
  c = ' ' || c = '\t' || c = '\n' || c = '\r' || c = '\x0b' || c = '\x0c'

/-- Case-insensitive character comparison (re.IGNORECASE over ASCII). -/
def ciEq (a b : Char) : Bool :=
  a.toUpper = b.toUpper

/-- `str.upper()`. -/
def strUpper (s : List Char) : List Char := s.map Char.toUpper

/-- `str.lower()`. -/
def strLower (s : List Char) : List Char := s.map Char.toLower

/-- Helper for `str.split()`: accumulate the current word (reversed). -/
def wordsWsAux : List Char → List Char → List (List Char)
  | cur, [] => if cur.isEmpty then [] else [cur.reverse]
  | cur, c :: cs =>
    if isPySpace c then
      if cur.isEmpty then wordsWsAux [] cs else cur.reverse :: wordsWsAux [] cs
    else wordsWsAux (c :: cur) cs

/-- Python `str.split()` with no separator: non-empty maximal runs of
non-whitespace characters. -/
def wordsWs (s : List Char) : List (List Char) := wordsWsAux [] s

/-- `' '.join(sql_query.split())` — collapse all whitespace to single spaces. -/
def normalizeWs (s : List Char) : List Char :=
  [' '].intercalate (wordsWs s)

/-- Case-sensitive list prefix test. -/
def isPrefixOfL : List Char → List Char → Bool
  | [], _ => true
  | _ :: _, [] => false
  | a :: as, b :: bs => a = b && isPrefixOfL as bs

/-- Python `needle in hay` (case-sensitive substring containment). -/
def containsSub (needle : List Char) : List Char → Bool
  | [] => needle.isEmpty
  | c :: cs => isPrefixOfL needle (c :: cs) || containsSub needle cs

/-- Fuelled body of `countSub`; each step consumes at least one
character of the haystack, so fuel equal to its length is exact. -/
def countSubF (needle : List Char) : Nat → List Char → Nat
  | 0, _ => 0
  | fuel + 1, s =>
    match s with
    | [] => 0
    | c :: cs =>
      if isPrefixOfL needle (c :: cs)
      then 1 + countSubF needle fuel (cs.drop (needle.length - 1))
      else countSubF needle fuel cs

/-- Python `hay.count(needle)` for a non-empty needle: non-overlapping
occurrences scanning from the left. -/
def countSub (needle hay : List Char) : Nat :=
  countSubF needle hay.length hay

/-- Python `hay.find(needle)` returning an index (`none` for -1). -/
def findSubPos (needle : List Char) : List Char → Option Nat
  | [] => if needle.isEmpty then some 0 else none
  | c :: cs =>
    if isPrefixOfL needle (c :: cs) then some 0
    else (findSubPos needle cs).map (· + 1)

/-- Python `str.strip()` (strip whitespace at both ends). -/
def stripWs (s : List Char) : List Char :=
  ((s.dropWhile isPySpace).reverse.dropWhile isPySpace).reverse

/-- Python `str.rstrip(ch)` for one character. -/
def rstripChar (ch : Char) (s : List Char) : List Char :=
  (s.reverse.dropWhile (fun c => c = ch)).reverse

/-- Decimal value of a digit run (`int(...)` on the capture). -/
def natFromDigits (ds : List Char) : Nat :=
  ds.foldl (fun a c => a * 10 + (c.toNat - 48)) 0

/-- Character classes occurring in the validator's regular expressions. -/
inductive CClass where
  | space
  | digit
  | anyc
  | notRParen
deriving DecidableEq

/-- Denotation of a character class (`.` does not match a newline). -/
def CClass.holds : CClass → Char → Bool
  | .space, c => isPySpace c
  | .digit, c => c.isDigit
  | .anyc, c => !(c = '\n')
  | .notRParen, c => !(c = ')')

/-- Regex tokens: case-insensitive literal, one class member, `*`, `+`,
and the zero-width word boundary `\b`. -/
inductive Tok where
  | lit : Char → Tok
  | one : CClass → Tok
  | many0 : CClass → Tok
  | many1 : CClass → Tok
  | wb : Tok
deriving DecidableEq

/-- Whether some position's preceding character is a word character
(`false` at the start of the string). -/
def isWordOpt : Option Char → Bool
  | none => false
  | some c => isWordChar c

/-- Fuelled backtracking matcher: every recursive call shrinks
`s.length + ts.length` by at least one, so fuel equal to that sum is
exact (at fuel zero both lists are empty and only the empty pattern
matches). -/
def matchToksF : Nat → List Tok → Bool → List Char → Bool
  | 0, ts, _, _ => ts.isEmpty
  | _ + 1, [], _, _ => true
  | fuel + 1, .wb :: ts, pw, s => (pw != isWordOpt s.head?) && matchToksF fuel ts pw s
  | _ + 1, .lit _ :: _, _, [] => false
  | fuel + 1, .lit a :: ts, _, c :: cs => ciEq a c && matchToksF fuel ts (isWordChar c) cs
  | _ + 1, .one _ :: _, _, [] => false
  | fuel + 1, .one k :: ts, _, c :: cs => k.holds c && matchToksF fuel ts (isWordChar c) cs
  | fuel + 1, .many0 k :: ts, pw, s =>
    matchToksF fuel ts pw s ||
      (match s with
       | [] => false
       | c :: cs => k.holds c && matchToksF fuel (.many0 k :: ts) (isWordChar c) cs)
  | _ + 1, .many1 _ :: _, _, [] => false
  | fuel + 1, .many1 k :: ts, _, c :: cs =>
    k.holds c && matchToksF fuel (.many0 k :: ts) (isWordChar c) cs

/-- Backtracking matcher: does the token list match a prefix of `s`,
given whether the previous character was a word character?  Greedy
versus lazy repetition is irrelevant for match existence, which is all
`re.search` truthiness needs. -/
def matchToks (ts : List Tok) (pw : Bool) (s : List Char) : Bool :=
  matchToksF (s.length + ts.length) ts pw s

/-- Try the pattern at every start position (`re.search`). -/
def searchToksAux (p : List Tok) : Bool → List Char → Bool
  | pw, s =>
    matchToks p pw s ||
      (match s with
       | [] => false
       | c :: cs => searchToksAux p (isWordChar c) cs)

/-- `re.search(pattern, s)` truthiness. -/
def searchToks (p : List Tok) (s : List Char) : Bool :=
  searchToksAux p false s

/-- Literal word as case-insensitive tokens. -/
def litToks (w : String) : List Tok := w.data.map Tok.lit

/-- Tokens of `\b{field}\s*=\s*{id}\b` (shared tail of the three
presence patterns in `validate_sql_for_client_isolation`). -/
def eqIdToks (field : String) (e : Nat) : List Tok :=
  [.wb] ++ litToks field ++ [.many0 .space, .lit '=', .many0 .space]
    ++ litToks (Nat.repr e) ++ [.wb]

/-- Row-level presence patterns (sql_validator.py lines 127-131):
`\bWHERE\s+.*?\b{f}\s*=\s*{id}\b`, `\bAND\s+.*?\b{f}\s*=\s*{id}\b`,
`\b{f}\s*=\s*{id}\b.*?\bWHERE\b`. -/
def presencePatternsRow (field : String) (e : Nat) : List (List Tok) :=
  [ [.wb] ++ litToks "WHERE" ++ [.many1 .space, .many0 .anyc] ++ eqIdToks field e
  , [.wb] ++ litToks "AND" ++ [.many1 .space, .many0 .anyc] ++ eqIdToks field e
  , eqIdToks field e ++ [.many0 .anyc, .wb] ++ litToks "WHERE" ++ [.wb] ]

/-- Brand-hierarchy presence patterns (sql_validator.py lines 95-99):
the first two as above plus `\b{f}\s*=\s*{id}\b` anywhere. -/
def presencePatternsHier (field : String) (e : Nat) : List (List Tok) :=
  [ [.wb] ++ litToks "WHERE" ++ [.many1 .space, .many0 .anyc] ++ eqIdToks field e
  , [.wb] ++ litToks "AND" ++ [.many1 .space, .many0 .anyc] ++ eqIdToks field e
  , eqIdToks field e ]

/-- `\b{field}\s+IN\s*\([^)]+\)` — the IN-clause pattern of the Single
Client check. -/
def inClauseToks (field : String) : List Tok :=
  [.wb] ++ litToks field ++ [.many1 .space] ++ litToks "IN"
    ++ [.many0 .space, .lit '(', .many1 .notRParen, .lit ')']

/-- `\b{kw}\b` for a destructive keyword. -/
def kwToks (kw : String) : List Tok :=
  [.wb] ++ litToks kw ++ [.wb]

/-- Case-insensitive prefix stripping (used to match the filter-field
name at a candidate position of the findall scan). -/
def stripPrefixCI : List Char → List Char → Option (List Char)
  | [], s => some s
  | _ :: _, [] => none
  | a :: as, b :: bs => if ciEq a b then stripPrefixCI as bs else none

/-- After the field name, match `\s*=\s*(\d+)`: returns the captured
value and the number of characters consumed from `s`. -/
def eqCaptureLen (s : List Char) : Option (Nat × Nat) :=
  let sp1 := (s.takeWhile isPySpace).length
  match s.drop sp1 with
  | '=' :: rest =>
    let sp2 := (rest.takeWhile isPySpace).length
    let ds := (rest.drop sp2).takeWhile Char.isDigit
    if ds.isEmpty then none
    else some (natFromDigits ds, sp1 + 1 + sp2 + ds.length)
  | _ => none

/-- Match `{field}\s*=\s*(\d+)` at the current position: captured value
and total consumed length. -/
def fieldEqCapture (field : List Char) (s : List Char) : Option (Nat × Nat) :=
  match stripPrefixCI field s with
  | none => none
  | some rest =>
    match eqCaptureLen rest with
    | none => none
    | some (v, k) => some (v, field.length + k)

/-- `re.findall(rf'\b{field}\s*=\s*(\d+)', s, re.IGNORECASE)`: scan left
to right, non-overlapping, resuming after each match; `pw` records
whether the previous character is a word character (for `\b`).  Each
step consumes at least one character, so fuel equal to the string
length is exact. -/
def findAllIdsAux (field : List Char) : Nat → Bool → List Char → List Nat
  | 0, _, _ => []
  | fuel + 1, pw, s =>
    match s with
    | [] => []
    | c :: cs =>
      if pw then findAllIdsAux field fuel (isWordChar c) cs
      else
        match fieldEqCapture field (c :: cs) with
        | some (v, k) => v :: findAllIdsAux field fuel true (cs.drop (k - 1))
        | none => findAllIdsAux field fuel (isWordChar c) cs

/-- All `{field} = N` literal captures in the normalized SQL. -/
def findAllIds (field : String) (sqlN : List Char) : List Nat :=
  findAllIdsAux field.data sqlN.length false sqlN

/-- One named check of the validator. -/
structure CheckResult where
  name : String
  status : String
  message : String
deriving DecidableEq

/-- One non-fatal warning of the validator. -/
structure WarningR where
  wtype : String
  message : String
deriving DecidableEq

/-- `ValidationResult` of sql_validator.py (wall-clock execution_time is
not modelled). -/
structure ValidationResult where
  passed : Bool
  checks : List CheckResult
  warnings : List WarningR
deriving DecidableEq

/-- The `client_isolation` sub-dictionary of a dataset configuration;
absent keys are `none` (the validator applies defaults). -/
structure IsolationCfg where
  method : Option String := none
  filter_field : Option String := none
deriving DecidableEq

/-- A dataset configuration as consumed by the validator. -/
structure DatasetCfg where
  dname : Option String := none
  client_isolation : Option IsolationCfg := none
deriving DecidableEq

/-- Isolation method with the validator's defaulting. -/
def cfgMethod : Option DatasetCfg → String
  | some c =>
    match c.client_isolation with
    | some iso => iso.method.getD "row-level"
    | none => "row-level"
  | none => "row-level"

/-- Filter column with the validator's defaulting. -/
def cfgField : Option DatasetCfg → String
  | some c =>
    match c.client_isolation with
    | some iso => iso.filter_field.getD "client_id"
    | none => "client_id"
  | none => "client_id"

/-- Check 1 predicate: some presence pattern of the configured method
matches the normalized SQL. -/
def clientFilterFound (method field : String) (e : Nat) (sqlN : List Char) : Bool :=
  if method = "brand-hierarchy" then
    (presencePatternsHier field e).any (fun p => searchToks p sqlN)
  else
    (presencePatternsRow field e).any (fun p => searchToks p sqlN)

/-- Check 1 record (Client ID Filter), statuses and messages as in
sql_validator.py lines 107-153. -/
def clientFilterCheck (method field : String) (e : Nat) (found : Bool) : CheckResult :=
  if found then
    { name := "Client ID Filter", status := "PASS",
      message :=
        if method = "brand-hierarchy" then
          "Found " ++ field ++ " = " ++ Nat.repr e ++ " filter"
        else
          "Query correctly filters by " ++ field ++ " = " ++ Nat.repr e }
  else
    { name := "Client ID Filter", status := "FAIL",
      message :=
        if method = "brand-hierarchy" then
          "Missing " ++ field ++ " = " ++ Nat.repr e ++ " filter (method: " ++ method ++ ")"
        else
          "Missing WHERE " ++ field ++ " = " ++ Nat.repr e ++ " filter" }

/-- Check 2 record (Single Client), sql_validator.py lines 161-199:
fail on an IN clause, then on more than one distinct captured literal,
then on a first captured literal different from the expected id.
The Python failure message renders a Python set; the embedded message
carries the deduplicated list instead, which no claim depends on. -/
def singleClientCheck (field : String) (e : Nat) (sqlN : List Char) : CheckResult :=
  let ids := findAllIds field sqlN
  let inFound := searchToks (inClauseToks field) sqlN
  if inFound then
    { name := "Single Client", status := "FAIL",
      message := "Query uses IN clause with multiple " ++ field ++ "s - data isolation violated" }
  else if 1 < ids.dedup.length then
    { name := "Single Client", status := "FAIL",
      message := "Query references multiple " ++ field ++ "s: "
        ++ String.intercalate ", " (ids.dedup.map Nat.repr) }
  else
    match ids with
    | v :: _ =>
      if v = e then
        { name := "Single Client", status := "PASS",
          message := "Query correctly references only one client" }
      else
        { name := "Single Client", status := "FAIL",
          message := "Query filters by " ++ field ++ " = " ++ Nat.repr v
            ++ " but expected " ++ Nat.repr e }
    | [] =>
      { name := "Single Client", status := "PASS",
        message := "Query correctly references only one client" }

/-- The fixed destructive-keyword list of Check 3. -/
def destructiveKeywords : List String :=
  ["DROP", "DELETE", "UPDATE", "INSERT", "ALTER", "TRUNCATE", "CREATE", "GRANT", "REVOKE"]

/-- First destructive keyword found as a standalone token in the
uppercased SQL (the Python loop breaks at the first hit). -/
def findDestructive (sqlU : List Char) : Option String :=
  destructiveKeywords.find? (fun k => searchToks (kwToks k) sqlU)

/-- Check 3 record (Read-Only). -/
def readOnlyCheck (fd : Option String) : CheckResult :=
  match fd with
  | some k =>
    { name := "Read-Only", status := "FAIL",
      message := "Destructive keyword detected: " ++ k ++ ". Only SELECT queries allowed." }
  | none =>
    { name := "Read-Only", status := "PASS",
      message := "Query is read-only (SELECT only)" }

/-- Non-fatal warnings, sql_validator.py lines 237-260. -/
def warningsOf (field : String) (sqlU : List Char) : List WarningR :=
  (if 1 < countSub "WHERE".data sqlU then
    [{ wtype := "MULTIPLE_WHERE",
       message := "Multiple WHERE clauses detected - verify JOIN logic includes "
         ++ field ++ " filtering" }]
   else [])
  ++ (if containsSub "SELECT".data sqlU && 1 < countSub "SELECT".data sqlU then
    [{ wtype := "SUBQUERY",
       message := "Subquery detected - ensure all subqueries filter by " ++ field }]
   else [])
  ++ (if containsSub "UNION".data sqlU then
    [{ wtype := "UNION",
       message := "UNION detected - verify both queries filter by " ++ field }]
   else [])

/-- `validate_sql_for_client_isolation(sql_query, expected_client_id,
dataset_config)`: the imperative `passed` flag starts true and is set
false exactly in the FAIL branch of each check, hence it equals the
conjunction below. -/
def validate_sql_for_client_isolation (sql : String) (e : Nat)
    (cfg : Option DatasetCfg) : ValidationResult :=
  let sqlU := strUpper sql.data
  let sqlN := normalizeWs sql.data
  let method := cfgMethod cfg
  let field := cfgField cfg
  let found := clientFilterFound method field e sqlN
  let c1 := clientFilterCheck method field e found
  let c2 := singleClientCheck field e sqlN
  let fd := findDestructive sqlU
  let c3 := readOnlyCheck fd
  { passed := found && (c2.status = "PASS") && fd.isNone
  , checks := [c1, c2, c3]
  , warnings := warningsOf field sqlU }

/-- `_add_to_history`: append, then keep only the last 10 entries
(agentic_text2sql_service.py lines 118-136). -/
def addToHistory {α : Type} (h : List α) (e : α) : List α :=
  let h2 := h ++ [e]
  if 10 < h2.length then h2.drop (h2.length - 10) else h2

/-- The history list of a session after a sequence of additions,
starting from the empty history created on first use. -/
def histAfter {α : Type} (es : List α) : List α :=
  es.foldl addToHistory []

/-- A stored session-history entry (timestamp not modelled). -/
structure HistEntry where
  user_query : String
  expanded_query : String
  sql_query : String
  was_expanded : Bool
deriving DecidableEq

/-- Vocabulary extracted from the dataset schema (an input of the
detector; its derivation is outside the claims). -/
structure Vocab where
  entities : List String
  metrics : List String
  dimensions : List String
deriving DecidableEq

/-- Action verbs checked by the clarification detector. -/
def actionWords : List String :=
  ["show", "list", "display", "get", "find", "compare", "analyze"]

/-- Vague lead-in patterns (first-turn fragment check). -/
def vaguePatterns : List String :=
  ["how about", "what about", "how are", "what are", "only ", "just ", "for ", "in "]

/-- Quarter/month keywords of the dimension/time-only check. -/
def timeKeywords : List String :=
  ["q1", "q2", "q3", "q4", "january", "february", "march", "april", "may", "june",
   "july", "august", "september", "october", "november", "december"]

/-- Time keywords of the trend check. -/
def trendTimeKeywords : List String :=
  ["q1", "q2", "q3", "q4", "january", "february", "march", "april", "may", "june",
   "july", "august", "september", "october", "november", "december",
   "week", "month", "quarter", "year", "last", "this", "recent", "latest"]

/-- Grouping-only phrasings. -/
def groupingPatterns : List String :=
  ["show me by", "show by", "list by", "display by",
   "compare by", "group by", "break down by", "split by"]

/-- Metric words of the performance check (the Python code shadows its
`has_metric` variable with this narrower list). -/
def perfMetricWords : List String :=
  ["revenue", "sales", "quantity", "profit", "growth", "margin"]

/-- `any(word in query_lower for word in ws)`. -/
def anyContained (ws : List String) (hay : List Char) : Bool :=
  ws.any (fun w => containsSub w.data hay)

/-- The two alternatives of `\b(20[0-9]{2}|202[0-9])\b`. -/
def yearToks : List (List Tok) :=
  [ [.wb, .lit '2', .lit '0', .one .digit, .one .digit, .wb]
  , [.wb, .lit '2', .lit '0', .lit '2', .one .digit, .wb] ]

/-- Trend rule of the detector (not gated on history): `trend` present,
no year and no time keyword, and the query is not otherwise complete. -/
def trendRuleFires (vocab : Vocab) (query : String) : Bool :=
  let ql := strLower query.data
  let has_entity := anyContained vocab.entities ql
  let has_metric := anyContained (vocab.metrics ++ ["how much", "how many", "all", "list"]) ql
  let has_action := anyContained actionWords ql
  containsSub "trend".data ql
    && !(yearToks.any (fun p => searchToks p ql) || anyContained trendTimeKeywords ql)
    && !(has_action && (has_metric || has_entity))

/-- Performance rule of the detector (not gated on history). -/
def performanceRuleFires (query : String) : Bool :=
  let ql := strLower query.data
  containsSub "performance".data ql && !(anyContained perfMetricWords ql)

/-- Top/best rule of the detector (not gated on history). -/
def topBestRuleFires (vocab : Vocab) (query : String) : Bool :=
  let ql := strLower query.data
  (containsSub "top".data ql || containsSub "best".data ql)
    && !(anyContained vocab.entities ql && anyContained vocab.metrics ql)

/-- Question accumulation of `_detect_clarification_node`
(agentic_text2sql_service.py lines 927-1031), rule by rule, in source
order.  `histLen` is the length of the session history the node reads
from the service store. -/
def detectQuestions (vocab : Vocab) (query : String) (histLen : Nat) : List String :=
  let ql := strLower query.data
  let wc := (wordsWs query.data).length
  let has_entity := anyContained vocab.entities ql
  let has_metric := anyContained (vocab.metrics ++ ["how much", "how many", "all", "list"]) ql
  let has_action := anyContained actionWords ql
  let questions : List String :=
    if histLen = 0 then
      (if anyContained vaguePatterns ql && wc ≤ 4
          && !(has_entity && has_metric && has_action) then
        ["What would you like to know? Please provide more details.",
         "Examples: 'Top products by revenue in South', 'Sales in Q4', etc."]
       else [])
      ++ (if anyContained (vocab.dimensions ++ timeKeywords) ql
            && !(has_entity && has_metric) then
        ["What data would you like to see?",
         "What metric are you interested in? (revenue, quantity, count?)"]
       else [])
    else []
  let questions :=
    if anyContained groupingPatterns ql && histLen = 0 then
      if !has_entity || !has_metric then
        questions
          ++ (if questions.contains "What data would you like to see?" then []
              else ["What data would you like to see? (products, sales, customers?)"])
          ++ (if questions.contains "What metric are you interested in?" then []
              else ["What metric are you interested in? (revenue, quantity, count?)"])
      else questions
    else questions
  let questions :=
    if containsSub "trend".data ql then
      let has_year := yearToks.any (fun p => searchToks p ql)
      let has_time_keyword := anyContained trendTimeKeywords ql
      let query_is_complete := has_action && (has_metric || has_entity)
      if !(has_year || has_time_keyword) && !query_is_complete then
        questions ++ ["Which time period?"]
      else questions
    else questions
  let questions :=
    if containsSub "performance".data ql then
      if anyContained perfMetricWords ql then questions
      else questions ++ ["Which metric (revenue, quantity, growth)?"]
    else questions
  let questions :=
    if containsSub "top".data ql || containsSub "best".data ql then
      if anyContained vocab.entities ql && anyContained vocab.metrics ql then questions
      else questions ++ ["By what measure? (e.g., revenue, units sold, market size, growth rate)"]
    else questions
  questions

/-- `_detect_clarification_node`: skip flag short-circuit, otherwise
clarification is needed iff the question list is non-empty. -/
def detectClarificationNode (vocab : Vocab) (skip : Bool) (query : String)
    (histLen : Nat) : Bool × List String :=
  if skip then (false, [])
  else
    let qs := detectQuestions vocab query histLen
    (!qs.isEmpty, qs)

/-- Action words used to decide whether a clarification is itself a
complete query (`_expand_query_with_context`). -/
def clarActionWords : List String :=
  ["show", "list", "display", "get", "find", "compare", "analyze", "need", "want", "see"]

/-- Split at the first occurrence of a marker (`str.split(marker, 1)`),
or `none` when the marker is absent. -/
def splitOnFirst (marker : List Char) (s : List Char) : Option (List Char × List Char) :=
  match findSubPos marker s with
  | some p => some (s.take p, s.drop (p + marker.length))
  | none => none

/-- Clarified-query combination for one marker: the clarification alone
when it carries an action verb, otherwise original plus clarification. -/
def clarifiedCombine (userQuery : String) (marker : String) : Option String :=
  match splitOnFirst marker.data userQuery.data with
  | none => none
  | some (pre, post) =>
    let original := rstripChar '.' (stripWs pre)
    let clar := stripWs post
    let hasAct := anyContained clarActionWords (strLower clar)
    some (String.mk (if hasAct then clar else stripWs (original ++ ' ' :: clar)))

/-- The post-condition guard list: an expansion containing any of these
is rejected as a SQL fragment. -/
def sqlFragmentIndicators : List String :=
  ["WHERE ", "SELECT ", "FROM ", "JOIN ", "GROUP BY",
   "ORDER BY", "LIMIT ", "corp_id =", "client_id ="]

/-- The expansion collaborator: given the (possibly combined) current
query, the previous queries offered as context, and the clarified flag,
it returns the generated text or raises.  The literal prompt text the
service builds around these inputs is not modelled: the collaborator is
an arbitrary external function, so composing it with the prompt
construction yields just another arbitrary function of these inputs. -/
structure ExpOracle where
  respond : String → List String → Bool → Except String String

/-- Expansion body once a collaborator call is due: last 5 entries as
context, SQL-fragment guard, fallback to previous-query concatenation
(agentic_text2sql_service.py lines 545-651). -/
def expandCore (orc : ExpOracle) (uq : String) (hist : List HistEntry)
    (isClar : Bool) : String :=
  let recent := if 5 < hist.length then hist.drop (hist.length - 5) else hist
  let prev := recent.map HistEntry.user_query
  match orc.respond uq prev isClar with
  | .error _ => uq
  | .ok resp0 =>
    let r1 := stripWs resp0.data
    let r2 :=
      if (r1.head? = some '\x22') && (r1.getLast? = some '\x22') then
        (r1.drop 1).dropLast
      else r1
    let isFrag := sqlFragmentIndicators.any
      (fun ind => containsSub (strLower ind.data) (strLower r2))
    if isFrag then
      match prev.getLast? with
      | some lastq => lastq ++ " " ++ uq
      | none => uq
    else String.mk r2

/-- `_expand_query_with_context` (agentic_text2sql_service.py lines
456-651): clarified-marker handling, then the no-history early return,
then the collaborator round-trip with guard and fallback. -/
def expandQueryWithContext (orc : ExpOracle) (userQuery : String)
    (chatHistory : List HistEntry) (isClarified : Bool) : String :=
  let combined : Option String :=
    if isClarified then
      match clarifiedCombine userQuery "Additional information:" with
      | some cq => some cq
      | none => clarifiedCombine userQuery "Additional context:"
    else none
  match combined with
  | some cq =>
    if chatHistory.isEmpty then cq
    else expandCore orc cq chatHistory isClarified
  | none =>
    if chatHistory.isEmpty then userQuery
    else expandCore orc userQuery chatHistory isClarified

/-- Detection of a clarified query in `generate_sql_with_agent`. -/
def hasClarificationMarker (q : String) : Bool :=
  containsSub "Additional information:".data q.data
    || containsSub "Additional context:".data q.data

/-- Result dictionary of `QueryExecutor.execute_query` as stored in
`execution_result`.  The real executor returns only `results`, `columns`
and `row_count` (no `success` key) and raises on errors, so both
optional fields model `dict.get` on possibly-absent keys; `rows`
abbreviates the length of the `results` list. -/
structure ExecResult where
  success : Option Bool := none
  error : Option String := none
  rows : Nat := 0
deriving DecidableEq

/-- Output of the `validate_results` tool. -/
structure ValidationTR where
  is_valid : Bool
  has_results : Bool
  row_count : Nat
  issues : List String
deriving DecidableEq

/-- Output of `_reflect_node`. -/
structure Reflection where
  is_acceptable : Bool
  should_refine : Bool
  issues : List String
  reasoning : String
deriving DecidableEq

/-- The `AgentState` TypedDict fields the workflow reads or writes
(`raw_sql_response`, `chat_history`, `metadata_context`, `sample_data`,
`client_name` and the chart/key-details extras are write-only or
display-only and are not modelled; `tool_calls` keeps only its length,
which is all the response uses). -/
structure AgentState where
  user_query : String
  resolved_query : String
  session_id : String
  client_id : Nat
  iteration : Nat
  max_iterations : Nat
  schema : Option String
  sql_query : Option String
  execution_result : Option ExecResult
  validation_result : Option ValidationTR
  security_validation : Option ValidationResult
  explanation : Option String
  reflection_result : Option Reflection
  clarification_needed : Bool
  clarification_questions : List String
  skip_clarification_check : Bool
  next_action : String
  is_complete : Bool
  error : Option String
  tool_calls : Nat
deriving DecidableEq

/-- Nodes of the compiled LangGraph, plus the END sentinel. -/
inductive WNode where
  | detect
  | plan
  | executeTools
  | generateSql
  | reflect
  | genExplanation
  | complete
  | done
deriving DecidableEq, BEq

/-- Service-level context shared by the nodes: extracted vocabulary, the
session store entry read by the detect node, and the dataset
configuration handed to the validator. -/
structure SvcCtx where
  vocab : Vocab
  history : List HistEntry
  datasetCfg : Option DatasetCfg

/-- External collaborators of one workflow run, indexed by how many
calls of the same kind happened before (schema introspection, SQL
generation, SQL execution, explanation generation).  `.error` models a
raised exception. -/
structure Oracles where
  fetchSchema : Nat → Except String String
  genSql : Nat → Except String String
  runSql : Nat → String → Except String ExecResult
  explain : Nat → Except String String

/-- Per-kind call counters threaded through a run. -/
structure Counters where
  schemaN : Nat := 0
  genN : Nat := 0
  execN : Nat := 0
  explainN : Nat := 0
deriving DecidableEq

/-- Helper for `str.split(sep)`. -/
def splitOnCharAux (sep : Char) : List Char → List Char → List (List Char)
  | cur, [] => [cur.reverse]
  | cur, c :: cs =>
    if c = sep then cur.reverse :: splitOnCharAux sep [] cs
    else splitOnCharAux sep (c :: cur) cs

/-- Python `str.split(sep)` for a single-character separator. -/
def splitOnChar (sep : Char) (s : List Char) : List (List Char) :=
  splitOnCharAux sep [] s

/-- The opening-brace character (written via its code point). -/
def lbraceChar : Char := Char.ofNat 123

/-- `'chart_metadata'` with single quotes. -/
def chartMetaSingleQuoted : List Char :=
  '\x27' :: "chart_metadata".data ++ ['\x27']

/-- `_extract_sql` (agentic_text2sql_service.py lines 1237-1314):
markdown-fence stripping, chart-metadata JSON removal, and the final
leading-keyword repair. -/
def extractSql (resp : String) : String :=
  let sql0 := stripWs resp.data
  let low0 := strLower sql0
  let sql1 :=
    if containsSub "```sql".data low0 || containsSub "```\nselect".data low0 then
      let start :=
        match findSubPos "```sql".data low0 with
        | some p => some p
        | none => findSubPos "```\nselect".data low0
      match start with
      | some p =>
        let t := sql0.drop p
        let core :=
          match (findSubPos "```".data (t.drop 3)).map (· + 3) with
          | some cpos => (t.take cpos).drop 3
          | none => t.drop 3
        let core2 :=
          if isPrefixOfL "sql\n".data (strLower core) then core.drop 4
          else if isPrefixOfL "sql ".data (strLower core) then core.drop 4
          else core
        stripWs core2
      | none => sql0
    else if isPrefixOfL "```".data sql0 then
      let kept := (splitOnChar '\n' sql0).filter
        (fun l => !(stripWs l = "```".data || stripWs l = "```sql".data
          || stripWs l = "```SQL".data))
      stripWs ("\n".data.intercalate kept)
    else sql0
  let sql2 :=
    match findSubPos [lbraceChar] sql1 with
    | some p =>
      let remaining := sql1.drop p
      if containsSub "\x22chart_metadata\x22".data remaining
          || containsSub chartMetaSingleQuoted remaining then
        stripWs (sql1.take p)
      else sql1
    | none => sql1
  let su := strUpper sql2
  if ["SELECT", "WITH", "INSERT", "UPDATE", "DELETE"].any
      (fun kw => isPrefixOfL kw.data su) then
    String.mk sql2
  else
    match findSubPos "SELECT".data su with
    | some p => String.mk (sql2.drop p)
    | none => String.mk sql2

/-- `_ensure_corp_id_filter` (agentic_text2sql_service.py lines
2234-2312): auto-inject `corp_id = <id>` when no textual variant of the
filter is present. -/
def ensureCorpIdFilter (sql : String) (clientId : Nat) : String :=
  let sl := strLower sql.data
  let pats : List String :=
    [ "corp_id = " ++ Nat.repr clientId
    , "corp_id=" ++ Nat.repr clientId
    , "corp_id = " ++ String.mk ['\x27'] ++ Nat.repr clientId ++ String.mk ['\x27'] ]
  if pats.any (fun p => containsSub (strLower p.data) sl) then sql
  else
    let su := strUpper sql.data
    if containsSub "WHERE".data su then
      match findSubPos "WHERE".data su with
      | some wpos =>
        let after := wpos + 5
        String.mk (sql.data.take after) ++ " corp_id = " ++ Nat.repr clientId
          ++ " AND " ++ String.mk (sql.data.drop after)
      | none => sql
    else
      let iposs := ["GROUP BY", "ORDER BY", "LIMIT", "HAVING"].filterMap
        (fun kw => findSubPos kw.data su)
      let ipos := iposs.foldl min sql.data.length
      String.mk (sql.data.take ipos) ++ " WHERE corp_id = " ++ Nat.repr clientId
        ++ " " ++ String.mk (sql.data.drop ipos)

/-- The reflection node's fixed critical-keyword taxonomy. -/
def criticalKeywords : List String :=
  ["syntax error", "parse error", "invalid sql",
   "unknown column", "unknown table",
   "no such table", "no such column"]

/-- Whether a lowercased error message contains a critical keyword. -/
def isCriticalError (msgLower : List Char) : Bool :=
  criticalKeywords.any (fun k => containsSub k.data msgLower)

/-- `_reflect_node` (agentic_text2sql_service.py lines 1461-1518).  The
guard mirrors Python truthiness: the error branch runs whenever the
stored execution result lacks a truthy `success` value. -/
def reflectionOf (s : AgentState) : Reflection :=
  let sr : Bool × List String :=
    match s.execution_result with
    | some r =>
      if !(r.success.getD false) then
        let em := strLower (r.error.getD "").data
        if isCriticalError em then
          (true, ["Critical SQL error: " ++ String.mk em])
        else
          (false, [String.mk em])
      else (false, [])
    | none => (false, [])
  let issues := sr.2 ++
    (match s.validation_result with
     | some v => if !v.has_results then ["Query returned no results"] else []
     | none => [])
  { is_acceptable := !sr.1
  , should_refine := sr.1
  , issues := issues
  , reasoning :=
      if sr.1 then "SQL has critical errors requiring retry" else "SQL quality acceptable" }

/-- State after the reflect node merged its update. -/
def withReflection (s : AgentState) : AgentState :=
  { s with reflection_result := some (reflectionOf s) }

/-- `_should_refine` (agentic_text2sql_service.py lines 1612-1638): the
route string, paired with the state dict as the function mutates it in
place (`state["sql_query"] = None` and so on before returning
"refine").  The function is installed as a LangGraph conditional-edge
router, and routers cannot write channel state: the dict they receive
is assembled from the channels and is re-read at the next superstep, so
only the second component's construction is the function's local
effect — the graph uses just the route string (`stepNode` below). -/
def refineRoute (s : AgentState) : String × AgentState :=
  let should := (s.reflection_result.map Reflection.should_refine).getD false
  if should && decide (s.iteration < s.max_iterations) then
    ("refine",
     { s with sql_query := none, execution_result := none, validation_result := none })
  else ("continue", s)

/-- `_plan_node` (agentic_text2sql_service.py lines 1045-1090):
increment the counter, force completion past the budget, otherwise walk
the artifact decision tree. -/
def planUpdates (s : AgentState) : AgentState :=
  let i := s.iteration + 1
  if s.max_iterations < i then
    { s with iteration := i, next_action := "complete", is_complete := true }
  else
    let na :=
      if s.schema.isNone then "get_schema"
      else if s.sql_query.isNone then "generate_sql"
      else if s.execution_result.isNone then "execute_sql"
      else if s.validation_result.isNone then "validate_results"
      else if s.reflection_result.isNone then "reflect"
      else if s.explanation.isNone && s.execution_result.isSome then "generate_explanation"
      else "complete"
    if na = "complete" then
      { s with iteration := i, next_action := na, is_complete := true }
    else
      { s with iteration := i, next_action := na }

/-- `_should_execute_or_generate`: route from the planned action. -/
def routeFromPlan (na : String) : WNode :=
  if na = "generate_sql" then .generateSql
  else if na = "reflect" then .reflect
  else if na = "generate_explanation" then .genExplanation
  else if na = "complete" then .complete
  else .executeTools

/-- Error string recorded when security validation rejects generated SQL. -/
def securityFailMsg (sv : ValidationResult) : String :=
  "Security validation failed: " ++ String.intercalate ", "
    ((sv.checks.filter (fun c => c.status = "FAIL")).map CheckResult.name)

/-- One step of the compiled graph: run the node body on the state and
follow the (conditional) edge to the next node.  Node return values are
merged into the state; conditional-edge routers (`_should_clarify`,
`_should_execute_or_generate`, `_should_refine`) only pick the next
node, so any in-place mutation a router performs on its argument is
discarded by the framework. -/
def stepNode (svc : SvcCtx) (orc : Oracles) :
    WNode → AgentState → Counters → AgentState × WNode × Counters
  | .detect, s, c =>
    let dq := detectClarificationNode svc.vocab s.skip_clarification_check
      s.resolved_query svc.history.length
    let s1 := { s with clarification_needed := dq.1,
                       clarification_questions := s.clarification_questions ++ dq.2 }
    (s1, if dq.1 then .complete else .plan, c)
  | .plan, s, c =>
    let s1 := planUpdates s
    (s1, routeFromPlan s1.next_action, c)
  | .executeTools, s, c =>
    if s.next_action = "get_schema" then
      match orc.fetchSchema c.schemaN with
      | .ok v =>
        ({ s with schema := some v, tool_calls := s.tool_calls + 1 },
         .plan, { c with schemaN := c.schemaN + 1 })
      | .error e =>
        ({ s with error := some ("Tool get_schema: " ++ e), tool_calls := s.tool_calls + 1 },
         .plan, { c with schemaN := c.schemaN + 1 })
    else if s.next_action = "execute_sql" then
      match orc.runSql c.execN (s.sql_query.getD "") with
      | .ok r =>
        ({ s with execution_result := some r, tool_calls := s.tool_calls + 1 },
         .plan, { c with execN := c.execN + 1 })
      | .error e =>
        ({ s with error := some ("Tool execute_sql: " ++ e), tool_calls := s.tool_calls + 1 },
         .plan, { c with execN := c.execN + 1 })
    else if s.next_action = "validate_results" then
      match s.execution_result with
      | some r =>
        let hasRes := !(r.rows = 0)
        let issues :=
          (if !hasRes then ["No results returned"] else [])
          ++ (if !(r.success.getD true) then
                ["Execution error: " ++ r.error.getD "None"] else [])
        let v : ValidationTR :=
          { is_valid := true, has_results := hasRes, row_count := r.rows, issues := issues }
        ({ s with validation_result := some v, tool_calls := s.tool_calls + 1 }, .plan, c)
      | none =>
        ({ s with error := some "Tool validate_results: execution result missing",
                  tool_calls := s.tool_calls + 1 }, .plan, c)
    else (s, .plan, c)
  | .generateSql, s, c =>
    let c1 := { c with genN := c.genN + 1 }
    match orc.genSql c.genN with
    | .error e =>
      ({ s with error := some ("SQL generation failed: " ++ e), is_complete := true },
       .plan, c1)
    | .ok raw =>
      let sql := ensureCorpIdFilter (extractSql raw) s.client_id
      let sv := validate_sql_for_client_isolation sql s.client_id svc.datasetCfg
      if sv.passed then
        ({ s with sql_query := some sql, security_validation := some sv }, .plan, c1)
      else
        ({ s with error := some (securityFailMsg sv), security_validation := some sv,
                  is_complete := true }, .plan, c1)
  | .reflect, s, c =>
    let routed := refineRoute (withReflection s)
    -- Both router labels ("refine" and "continue") are wired to plan,
    -- and the router's in-place clearing of sql/execution/validation
    -- never reaches the channels, so only the reflect node's returned
    -- reflection_result update persists into the next superstep.
    (withReflection s, if routed.1 = "refine" then .plan else .plan, c)
  | .genExplanation, s, c =>
    match s.execution_result with
    | some r =>
      if r.rows = 0 then
        ({ s with explanation := some "The query returned no results. This might indicate that no data matches the specified criteria." }, .plan, c)
      else
        match orc.explain c.explainN with
        | .ok t =>
          ({ s with explanation := some (String.mk (stripWs t.data)) },
           .plan, { c with explainN := c.explainN + 1 })
        | .error _ =>
          ({ s with explanation := some ("Found " ++ Nat.repr r.rows ++ " result(s) for your query.") },
           .plan, { c with explainN := c.explainN + 1 })
    | none =>
      ({ s with explanation := some "The query returned no results. This might indicate that no data matches the specified criteria." }, .plan, c)
  | .complete, s, c =>
    ({ s with is_complete := true }, .done, c)
  | .done, s, c => (s, .done, c)

/-- Run the graph with the given fuel, recording the trace of executed
nodes (the END sentinel stops the run). -/
def runAux (svc : SvcCtx) (orc : Oracles) :
    Nat → WNode → AgentState → Counters → AgentState × Counters × List WNode
  | 0, _, s, c => (s, c, [])
  | fuel + 1, n, s, c =>
    if n = .done then (s, c, [])
    else
      let t := stepNode svc orc n s c
      let r := runAux svc orc fuel t.2.1 t.1 t.2.2
      (r.1, r.2.1, n :: r.2.2)

/-- Number of visits of a node in a trace. -/
def countNode (m : WNode) (tr : List WNode) : Nat :=
  (tr.filter (fun n => decide (n = m))).length

/-- The response dictionary built by `_format_response` (chart metadata,
follow-up info and key details are display-only extras and not
modelled); keys that the Python dict omits are `none`/defaults here. -/
structure ResponseR where
  success : Bool
  needs_clarification : Bool := false
  questions : List String := []
  sql : Option String := none
  explanation : Option String := none
  iterations : Nat := 0
  tool_calls : Nat := 0
  clarification_needed : Bool := false
  results : Option ExecResult := none
  validationR : Option ValidationTR := none
  reflection : Option Reflection := none
  security_validation : Option ValidationResult := none
deriving DecidableEq

/-- `_format_response` (agentic_text2sql_service.py lines 1787-1863):
clarification branch, otherwise the normal branch with `success: True`
unconditionally; the state's `error` field is never surfaced. -/
def formatResponse (s : AgentState) : ResponseR :=
  if s.clarification_needed then
    { success := false, needs_clarification := true,
      questions := s.clarification_questions }
  else
    { success := true
    , sql := s.sql_query
    , explanation := s.explanation
    , iterations := s.iteration
    , tool_calls := s.tool_calls
    , clarification_needed := false
    , results := s.execution_result
    , validationR := s.validation_result
    , reflection := s.reflection_result
    , security_validation := s.security_validation }

/-- `generate_sql_with_agent` (agentic_text2sql_service.py lines
1668-1776): expansion, initial state, graph run, conditional history
append, response formatting.  Returns the response, the updated session
history, and the node trace of the run. -/
def generateSqlWithAgent (svc : SvcCtx) (orc : Oracles) (eor : ExpOracle)
    (userQuery sessionId : String) (clientId maxIter : Nat) :
    ResponseR × List HistEntry × List WNode :=
  let isClar := hasClarificationMarker userQuery
  let expanded := expandQueryWithContext eor userQuery svc.history isClar
  let isExpanded := !(expanded = userQuery)
  let s0 : AgentState :=
    { user_query := userQuery
    , resolved_query := expanded
    , session_id := sessionId
    , client_id := clientId
    , iteration := 0
    , max_iterations := maxIter
    , schema := none
    , sql_query := none
    , execution_result := none
    , validation_result := none
    , security_validation := none
    , explanation := none
    , reflection_result := none
    , clarification_needed := false
    , clarification_questions := []
    , skip_clarification_check := isClar
    , next_action := "plan"
    , is_complete := false
    , error := none
    , tool_calls := 0 }
  let r := runAux svc orc (2 * maxIter + 10) .detect s0 {}
  let fs := r.1
  let hist1 :=
    if !(fs.sql_query.getD "" = "") && !fs.clarification_needed then
      addToHistory svc.history
        { user_query := userQuery, expanded_query := expanded,
          sql_query := fs.sql_query.getD "", was_expanded := isExpanded }
    else svc.history
  (formatResponse fs, hist1, r.2.2)

/-- A small schema-derived vocabulary in the shape the sales dataset
produces (entities from table names, metrics from numeric columns,
dimensions from dimension tables). -/
def demoVocab : Vocab :=
  { entities := ["product", "products", "sale", "sales", "client", "clients"]
  , metrics := ["revenue", "quantity", "profit"]
  , dimensions := ["region", "category", "segment"] }

/-- The sales dataset configuration as the validator sees it: a
`client_isolation` entry without `method`/`filter_field` keys, so the
row-level / `client_id` defaults apply. -/
def salesCfg : Option DatasetCfg :=
  some { dname := some "Sales Transactions"
       , client_isolation := some {} }

/-- Service context for the demonstration runs: empty session history. -/
def svcDemo : SvcCtx :=
  { vocab := demoVocab, history := [], datasetCfg := salesCfg }

/-- Identity expansion collaborator (echoes the query). -/
def eorId : ExpOracle := { respond := fun q _ _ => .ok q }

/-- Collaborators for the security-failure run: schema fetch succeeds
and every generation attempt returns SQL without the tenant filter. -/
def orcNoFilter : Oracles :=
  { fetchSchema := fun _ => .ok "CREATE TABLE products (product_id INTEGER, product_name TEXT, client_id INTEGER)"
  , genSql := fun _ => .ok "SELECT * FROM products"
  , runSql := fun _ _ => .ok { rows := 3 }
  , explain := fun _ => .ok "Explanation." }

/-- Collaborators for the generation-failure run: every SQL-generation
call raises. -/
def orcGenRaises : Oracles :=
  { fetchSchema := fun _ => .ok "CREATE TABLE products (product_id INTEGER, product_name TEXT, client_id INTEGER)"
  , genSql := fun _ => .error "API timeout"
  , runSql := fun _ _ => .ok { rows := 3 }
  , explain := fun _ => .ok "Explanation." }

/-- Well-behaved collaborators: generated SQL carries the expected
filter, execution returns three rows. -/
def orcGood : Oracles :=
  { fetchSchema := fun _ => .ok "CREATE TABLE products (product_id INTEGER, product_name TEXT, client_id INTEGER)"
  , genSql := fun _ => .ok "SELECT * FROM products WHERE client_id = 5"
  , runSql := fun _ _ => .ok { rows := 3 }
  , explain := fun _ => .ok "The three products are listed." }

/-- The run of claim C1's counterexample: budget 2, tenant 5, every
generated SQL missing the `client_id` filter. -/
def runNoFilter : ResponseR × List HistEntry × List WNode :=
  generateSqlWithAgent svcDemo orcNoFilter eorId "Show all products" "s1" 5 2

/-- The run of claim C6: budget 3, every generation call raising. -/
def runGenRaises : ResponseR × List HistEntry × List WNode :=
  generateSqlWithAgent svcDemo orcGenRaises eorId "Show all products" "s1" 5 3

/-- An execution failure whose message carries a critical keyword (the
error-dict shape the reflect node classifies as requiring retry). -/
def execFailCritical : ExecResult :=
  { success := some false, error := some "no such table: products", rows := 0 }

/-- Collaborators for the critical-execution-failure run: generated SQL
passes validation, every execution attempt yields the failure above. -/
def orcExecFails : Oracles :=
  { fetchSchema := fun _ => .ok "CREATE TABLE products (product_id INTEGER, product_name TEXT, client_id INTEGER)"
  , genSql := fun _ => .ok "SELECT * FROM products WHERE client_id = 5"
  , runSql := fun _ _ => .ok execFailCritical
  , explain := fun _ => .ok "Explanation." }

/-- A fresh workflow state with budget 1 (claim C5's witness). -/
def s0Demo : AgentState :=
  { user_query := "Show all products"
  , resolved_query := "Show all products"
  , session_id := "s1"
  , client_id := 5
  , iteration := 0
  , max_iterations := 1
  , schema := none
  , sql_query := none
  , execution_result := none
  , validation_result := none
  , security_validation := none
  , explanation := none
  , reflection_result := none
  , clarification_needed := false
  , clarification_questions := []
  , skip_clarification_check := false
  , next_action := "plan"
  , is_complete := false
  , error := none
  , tool_calls := 0 }

/-- A state about to generate SQL (claim C1's witness). -/
def sGenDemo : AgentState :=
  { s0Demo with
      schema := some "CREATE TABLE products (product_id INTEGER, client_id INTEGER)"
    , iteration := 2
    , max_iterations := 2
    , next_action := "generate_sql" }

/-- A fresh workflow state with budget 10 (claim C7's run). -/
def s0ExecDemo : AgentState := { s0Demo with max_iterations := 10 }

/-- The run of claim C7: tenant 5, budget 10, every execution failing
with a critical-keyword error. -/
def runExecFails : AgentState × Counters × List WNode :=
  runAux svcDemo orcExecFails 30 .detect s0ExecDemo {}

/-- The state of claim C7's run as it enters the reflect node (after
its first 10 node executions: detect, four plan passes, schema fetch,
generation, execution, result validation). -/
def sBeforeReflect : AgentState :=
  (runAux svcDemo orcExecFails 10 .detect s0ExecDemo {}).1

lemma addToHistory_length {α : Type} (h : List α) (e : α) :
    (addToHistory h e).length = min (h.length + 1) 10 := by
  simp only [addToHistory]
  split <;> simp_all <;> omega

lemma foldl_addToHistory_le {α : Type} (es : List α) :
    ∀ h : List α, h.length ≤ 10 → (es.foldl addToHistory h).length ≤ 10 := by
  induction es with
  | nil => intro h hh; simpa [List.foldl] using hh
  | cons e es ih =>
    intro h hh
    simp only [List.foldl]
    exact ih _ (by rw [addToHistory_length]; omega)

lemma addToHistory_full {α : Type} (h : List α) (e : α) (h10 : h.length = 10) :
    addToHistory h e = h.drop 1 ++ [e] := by
  simp only [addToHistory]
  rw [if_pos (by simp [h10])]
  have hlen : (h ++ [e]).length - 10 = 1 := by simp [h10]
  rw [hlen, List.drop_append_eq_append_drop]
  simp [h10]

/-- C4: session history is bounded by 10 with strict oldest-first
eviction.  For every sequence of turns appended to a fresh session, the
stored list never exceeds 10 entries, and appending to a full (10-entry)
history drops exactly the oldest entry, keeping the remaining entries in
order followed by the new one. -/
theorem c4_history_bounded_fifo {α : Type} (es : List α) :
    (histAfter es).length ≤ 10 ∧
    ∀ e : α, (histAfter es).length = 10 →
      addToHistory (histAfter es) e = (histAfter es).drop 1 ++ [e] := by
  constructor
  · exact foldl_addToHistory_le es [] (by simp)
  · intro e h10
    exact addToHistory_full _ e h10

/-- Witness for C4 at a concrete 11-entry sequence of turns. -/
theorem c4_history_bounded_fifo_witness :
    (histAfter [0, 1, 2, 3, 4, 5, 6, 7, 8, 9, 10]).length ≤ 10 ∧
    addToHistory (histAfter [0, 1, 2, 3, 4, 5, 6, 7, 8, 9, 10]) 99
      = (histAfter [0, 1, 2, 3, 4, 5, 6, 7, 8, 9, 10]).drop 1 ++ [99] :=
  ⟨(c4_history_bounded_fifo [0, 1, 2, 3, 4, 5, 6, 7, 8, 9, 10]).1,
   (c4_history_bounded_fifo [0, 1, 2, 3, 4, 5, 6, 7, 8, 9, 10]).2 99 (by decide)⟩

/-- C9: query expansion is the identity on a history-independent,
non-clarified input.  With an empty session history and no
clarification marker (so `is_clarified` is false, as the service derives
it), `_expand_query_with_context` returns the utterance unchanged
without consulting the collaborator: output equals input. -/
theorem c9_expansion_identity (eor : ExpOracle) (q : String)
    (h : hasClarificationMarker q = false) :
    expandQueryWithContext eor q [] (hasClarificationMarker q) = q := by
  rw [h]
  simp [expandQueryWithContext]

/-- Witness for C9 at a concrete complete standalone query. -/
theorem c9_expansion_identity_witness :
    hasClarificationMarker "Show total revenue by region for 2023" = false ∧
    expandQueryWithContext eorId "Show total revenue by region for 2023" []
        (hasClarificationMarker "Show total revenue by region for 2023")
      = "Show total revenue by region for 2023" :=
  ⟨by decide, c9_expansion_identity eorId _ (by decide)⟩

lemma clientFilterCheck_name (m f : String) (e : Nat) (b : Bool) :
    (clientFilterCheck m f e b).name = "Client ID Filter" := by
  cases b <;> simp [clientFilterCheck]

lemma clientFilterCheck_status (m f : String) (e : Nat) (b : Bool) :
    (clientFilterCheck m f e b).status = if b then "PASS" else "FAIL" := by
  cases b <;> simp [clientFilterCheck]

lemma singleClientCheck_name (f : String) (e : Nat) (s : List Char) :
    (singleClientCheck f e s).name = "Single Client" := by
  unfold singleClientCheck
  dsimp only
  repeat' split
  all_goals rfl

lemma singleClientCheck_status_cases (f : String) (e : Nat) (s : List Char) :
    (singleClientCheck f e s).status = "PASS" ∨
      (singleClientCheck f e s).status = "FAIL" := by
  unfold singleClientCheck
  dsimp only
  repeat' split
  all_goals simp

lemma readOnlyCheck_name (fd : Option String) :
    (readOnlyCheck fd).name = "Read-Only" := by
  cases fd <;> simp [readOnlyCheck]

lemma readOnlyCheck_status (fd : Option String) :
    (readOnlyCheck fd).status = if fd.isSome then "FAIL" else "PASS" := by
  cases fd <;> simp [readOnlyCheck]

/-- C2: overall validation passes iff all three named checks pass, and
the checks are exactly Client ID Filter, Single Client and Read-Only in
that order.  The warnings list is computed by `warningsOf` from the
uppercased SQL alone and never enters the `passed` flag, which by the
equivalence below is a function of the three check statuses only. -/
theorem c2_passed_iff_all_checks (sql : String) (e : Nat) (cfg : Option DatasetCfg) :
    ((validate_sql_for_client_isolation sql e cfg).passed = true ↔
      ∀ ch ∈ (validate_sql_for_client_isolation sql e cfg).checks, ch.status = "PASS") ∧
    (validate_sql_for_client_isolation sql e cfg).checks.map CheckResult.name
      = ["Client ID Filter", "Single Client", "Read-Only"] := by
  unfold validate_sql_for_client_isolation
  constructor
  · simp only [List.forall_mem_cons, List.forall_mem_nil, and_true]
    rw [clientFilterCheck_status, readOnlyCheck_status]
    rcases singleClientCheck_status_cases (cfgField cfg) e (normalizeWs sql.data)
      with hs | hs <;>
      cases hb : clientFilterFound (cfgMethod cfg) (cfgField cfg) e (normalizeWs sql.data) <;>
      cases hd : findDestructive (strUpper sql.data) <;>
      simp [hs, hb, hd]
  · simp [clientFilterCheck_name, singleClientCheck_name, readOnlyCheck_name]

lemma all_eq_of_dedup_le_one {l : List Nat} (h : l.dedup.length ≤ 1) :
    ∀ a ∈ l, ∀ b ∈ l, a = b := by
  intro a ha b hb
  have ha2 : a ∈ l.dedup := List.mem_dedup.mpr ha
  have hb2 : b ∈ l.dedup := List.mem_dedup.mpr hb
  rcases hd : l.dedup with _ | ⟨x, _ | ⟨y, t⟩⟩
  · rw [hd] at ha2
    simp at ha2
  · rw [hd] at ha2 hb2
    simp at ha2 hb2
    rw [ha2, hb2]
  · rw [hd] at h
    simp at h

lemma exists_ne_of_one_lt_dedup {l : List Nat} (e : Nat) (h : 1 < l.dedup.length) :
    ∃ v ∈ l, v ≠ e := by
  rcases hd : l.dedup with _ | ⟨a, _ | ⟨b, t⟩⟩
  · rw [hd] at h
    simp at h
  · rw [hd] at h
    simp at h
  · have hnd := l.nodup_dedup
    rw [hd] at hnd
    have hab : a ≠ b := by
      intro hab
      rw [List.nodup_cons] at hnd
      exact hnd.1 (hab ▸ List.mem_cons_self b t)
    have hal : a ∈ l := List.mem_dedup.mp (by rw [hd]; exact List.mem_cons_self a (b :: t))
    have hbl : b ∈ l := List.mem_dedup.mp
      (by rw [hd]; exact List.mem_cons_of_mem a (List.mem_cons_self b t))
    by_cases hae : a = e
    · exact ⟨b, hbl, fun hbe => hab (by rw [hae, hbe])⟩
    · exact ⟨a, hal, hae⟩

lemma singleClientCheck_fail_iff (f : String) (e : Nat) (s : List Char) :
    ((singleClientCheck f e s).status = "FAIL" ↔
      (searchToks (inClauseToks f) s = true ∨ ∃ v ∈ findAllIds f s, v ≠ e)) := by
  unfold singleClientCheck
  dsimp only
  cases hin : searchToks (inClauseToks f) s with
  | true => simp
  | false =>
    rw [if_neg (by simp)]
    simp only [Bool.false_eq_true, false_or]
    by_cases hd : 1 < (findAllIds f s).dedup.length
    · rw [if_pos hd]
      constructor
      · intro _
        exact exists_ne_of_one_lt_dedup e hd
      · intro _
        rfl
    · rw [if_neg hd]
      push_neg at hd
      rcases hi : findAllIds f s with _ | ⟨v, t⟩
      · simp
      · rw [hi] at hd
        dsimp only
        by_cases hv : v = e
        · rw [if_pos hv]
          constructor
          · intro hcon
            simp at hcon
          · rintro ⟨x, hx, hne⟩
            have hxv := all_eq_of_dedup_le_one hd x hx v (List.mem_cons_self v t)
            exact absurd (hxv.trans hv) hne
        · rw [if_neg hv]
          constructor
          · intro _
            exact ⟨v, List.mem_cons_self v t, hv⟩
          · intro _
            rfl

/-- C3: the Single Client check fails iff the SQL has an IN-list on the
filter column or some captured `field = N` literal differs from the
expected tenant id (covering both the two-distinct-literals case and the
single-wrong-literal case); otherwise it passes.  The first conjunct
ties the characterized check to position 1 of the validator's check
list. -/
theorem c3_single_client_characterization (sql : String) (e : Nat) (cfg : Option DatasetCfg) :
    ((validate_sql_for_client_isolation sql e cfg).checks.get? 1
        = some (singleClientCheck (cfgField cfg) e (normalizeWs sql.data))) ∧
    ((singleClientCheck (cfgField cfg) e (normalizeWs sql.data)).status = "FAIL" ↔
      (searchToks (inClauseToks (cfgField cfg)) (normalizeWs sql.data) = true ∨
        ∃ v ∈ findAllIds (cfgField cfg) (normalizeWs sql.data), v ≠ e)) := by
  constructor
  · rfl
  · exact singleClientCheck_fail_iff (cfgField cfg) e (normalizeWs sql.data)

/-- Witness for C3: `client_id IN (1,2,3)` makes the Single Client
check fail (the spec's own example). -/
theorem c3_single_client_characterization_witness :
    (singleClientCheck (cfgField salesCfg) 1
        (normalizeWs "SELECT * FROM products WHERE client_id IN (1,2,3)".data)).status
      = "FAIL" :=
  (c3_single_client_characterization "SELECT * FROM products WHERE client_id IN (1,2,3)" 1
      salesCfg).2.mpr (by left; decide)

/-- C10: when the SQL contains no `field = N` literal and no IN-list on
the filter column, the Single Client check reports PASS — the complete
absence of a tenant filter is left to the Client ID Filter (Presence)
check.  The second conjunct places the check inside the validator's
output. -/
theorem c10_single_client_pass_without_filter (sql : String) (e : Nat)
    (cfg : Option DatasetCfg)
    (h1 : findAllIds (cfgField cfg) (normalizeWs sql.data) = [])
    (h2 : searchToks (inClauseToks (cfgField cfg)) (normalizeWs sql.data) = false) :
    (singleClientCheck (cfgField cfg) e (normalizeWs sql.data)).status = "PASS" ∧
    (validate_sql_for_client_isolation sql e cfg).checks.get? 1
      = some (singleClientCheck (cfgField cfg) e (normalizeWs sql.data)) := by
  constructor
  · unfold singleClientCheck
    dsimp only
    rw [h1, h2]
    simp
  · rfl

/-- Witness for C10: a filterless query over the sales configuration. -/
theorem c10_single_client_pass_without_filter_witness :
    findAllIds (cfgField salesCfg) (normalizeWs "SELECT * FROM products".data) = [] ∧
    searchToks (inClauseToks (cfgField salesCfg))
        (normalizeWs "SELECT * FROM products".data) = false ∧
    (singleClientCheck (cfgField salesCfg) 5
        (normalizeWs "SELECT * FROM products".data)).status = "PASS" :=
  ⟨by decide, by decide,
   (c10_single_client_pass_without_filter "SELECT * FROM products" 5 salesCfg
      (by decide) (by decide)).1⟩

/-- C8 counterexample: with a non-empty session history (length 1) the
utterance "trend" still triggers the detector — `clarification_needed`
is true with a question, where the claim requires no questions and
`clarification_needed = false` for every utterance once history is
non-empty. -/
theorem c8_counterexample :
    (detectClarificationNode demoVocab false "trend" 1).1 = true ∧
    (detectClarificationNode demoVocab false "trend" 1).2 = ["Which time period?"] := by
  decide

/-- C8 amended: only the vague-fragment, dimension/time-only and
grouping-only rules are restricted to the first turn; the trend,
performance and top/best rules run on every turn.  With a non-empty
history the detector requests clarification exactly when one of those
three rules fires. -/
lemma block_app_pos (qs : List String) (c d : Bool) (x : String) :
    (if c then (if d then qs ++ [x] else qs) else qs) = qs ++ (if c && d then [x] else []) := by
  cases c <;> cases d <;> simp

lemma block_app_neg (qs : List String) (c d : Bool) (x : String) :
    (if c then (if d then qs else qs ++ [x]) else qs) = qs ++ (if c && !d then [x] else []) := by
  cases c <;> cases d <;> simp

lemma isEmpty_three_blocks (a b c : Bool) (x y z : String) :
    (!(((([] : List String) ++ (if a then [x] else [])) ++ (if b then [y] else []))
        ++ (if c then [z] else [])).isEmpty) = (a || b || c) := by
  cases a <;> cases b <;> cases c <;> simp

theorem c8_amended_detector_with_history (vocab : Vocab) (q : String) (n : Nat)
    (hn : n ≠ 0) :
    (detectClarificationNode vocab false q n).1
      = (trendRuleFires vocab q || performanceRuleFires q || topBestRuleFires vocab q) := by
  have hdec : decide (n = 0) = false := by simp [hn]
  unfold detectClarificationNode detectQuestions
  dsimp only
  rw [if_neg hn, hdec, Bool.and_false, if_neg Bool.false_ne_true,
    if_neg Bool.false_ne_true, block_app_pos, block_app_neg, block_app_neg,
    isEmpty_three_blocks]
  unfold trendRuleFires performanceRuleFires topBestRuleFires
  dsimp only
  simp [Bool.and_assoc]

/-- Witness for the amended C8 at a concrete second-turn utterance. -/
theorem c8_amended_detector_with_history_witness :
    (detectClarificationNode demoVocab false "show revenue" 2).1
      = (trendRuleFires demoVocab "show revenue" || performanceRuleFires "show revenue"
          || topBestRuleFires demoVocab "show revenue") :=
  c8_amended_detector_with_history demoVocab "show revenue" 2 (by decide)

/-- C7 evaluation: budget 10, generated SQL valid, every execution
failing with "no such table: products" (a critical keyword).  The
reflect node does set `should_refine = true`, and `_should_refine`
picks the "refine" edge with iterations remaining, writing the cleared
artifacts only into the local dict it was handed (second and third
conjuncts).  But a LangGraph router cannot write channel state, so in
the run itself nothing is cleared and no retry happens: generation
executes exactly once, the SQL, execution-result and validation
artifacts all survive into the final state, and the run completes with
an explanation and `success = true` — contrary to the claim's (and the
code comments') cleared-artifacts-and-loop-to-Plan retry behaviour. -/
theorem c7_critical_failure_no_retry :
    (reflectionOf sBeforeReflect).should_refine = true ∧
    (refineRoute (withReflection sBeforeReflect)).1 = "refine" ∧
    (refineRoute (withReflection sBeforeReflect)).2.sql_query = none ∧
    sBeforeReflect.iteration < sBeforeReflect.max_iterations ∧
    countNode .generateSql runExecFails.2.2 = 1 ∧
    countNode .reflect runExecFails.2.2 = 1 ∧
    runExecFails.1.sql_query
      = some "SELECT * FROM products WHERE corp_id = 5 AND  client_id = 5" ∧
    runExecFails.1.execution_result.map ExecResult.error
      = some (some "no such table: products") ∧
    runExecFails.1.validation_result.isSome = true ∧
    runExecFails.1.explanation.isSome = true ∧
    (formatResponse runExecFails.1).success = true := by
  decide

lemma runAux_from_done (svc : SvcCtx) (orc : Oracles) (f : Nat) (s : AgentState)
    (c : Counters) : runAux svc orc f .done s c = (s, c, []) := by
  cases f <;> simp [runAux]

lemma runAux_succ (svc : SvcCtx) (orc : Oracles) (f : Nat) (n : WNode) (s : AgentState)
    (c : Counters) (hn : ¬ n = .done) :
    runAux svc orc (f + 1) n s c
      = ((runAux svc orc f (stepNode svc orc n s c).2.1 (stepNode svc orc n s c).1
            (stepNode svc orc n s c).2.2).1,
         (runAux svc orc f (stepNode svc orc n s c).2.1 (stepNode svc orc n s c).1
            (stepNode svc orc n s c).2.2).2.1,
         n :: (runAux svc orc f (stepNode svc orc n s c).2.1 (stepNode svc orc n s c).1
            (stepNode svc orc n s c).2.2).2.2) := by
  simp [runAux, hn]

lemma countNode_cons (m n : WNode) (tr : List WNode) :
    countNode m (n :: tr) = (if n = m then 1 else 0) + countNode m tr := by
  by_cases h : n = m <;> simp [countNode, List.filter_cons, h] <;> omega

lemma countPlan_complete (svc : SvcCtx) (orc : Oracles) (f : Nat) (s : AgentState)
    (c : Counters) :
    countNode .plan (runAux svc orc f .complete s c).2.2 = 0 := by
  cases f with
  | zero => rfl
  | succ f2 => simp [runAux, stepNode, runAux_from_done, countNode]

lemma planUpdates_iter_max (s : AgentState) :
    (planUpdates s).iteration = s.iteration + 1 ∧
    (planUpdates s).max_iterations = s.max_iterations := by
  unfold planUpdates
  by_cases hmax : s.max_iterations < s.iteration + 1
  · simp [hmax]
  · rw [if_neg hmax]
    dsimp only
    repeat' split
    all_goals simp

lemma stepNode_iter_max (svc : SvcCtx) (orc : Oracles) (n : WNode) (s : AgentState)
    (c : Counters) (hn : ¬ n = .plan) :
    (stepNode svc orc n s c).1.iteration = s.iteration ∧
    (stepNode svc orc n s c).1.max_iterations = s.max_iterations := by
  cases n with
  | plan => exact absurd rfl hn
  | detect => simp [stepNode]
  | executeTools =>
    simp only [stepNode]
    repeat' split
    all_goals simp
  | generateSql =>
    simp only [stepNode]
    repeat' split
    all_goals simp
  | reflect => simp [stepNode, withReflection]
  | genExplanation =>
    simp only [stepNode]
    repeat' split
    all_goals simp
  | complete => simp [stepNode]
  | done => simp [stepNode]

lemma countPlan_le (svc : SvcCtx) (orc : Oracles) :
    ∀ (fuel : Nat) (n : WNode) (s : AgentState) (c : Counters),
      s.iteration ≤ s.max_iterations →
      countNode .plan (runAux svc orc fuel n s c).2.2
        ≤ s.max_iterations + 1 - s.iteration := by
  intro fuel
  induction fuel with
  | zero =>
    intro n s c _
    simp [runAux, countNode]
  | succ f ih =>
    intro n s c h
    by_cases hdone : n = .done
    · subst hdone
      simp [runAux, countNode]
    · rw [runAux_succ svc orc f n s c hdone]
      dsimp only
      rw [countNode_cons]
      by_cases hplan : n = .plan
      · subst hplan
        have hstep : stepNode svc orc .plan s c
            = (planUpdates s, routeFromPlan (planUpdates s).next_action, c) := rfl
        rw [hstep]
        dsimp only
        by_cases hmax : s.max_iterations < s.iteration + 1
        · have hiter : s.iteration = s.max_iterations := le_antisymm h (by omega)
          have hpu : planUpdates s
              = { s with
                  iteration := s.iteration + 1
                  next_action := "complete"
                  is_complete := true } := by
            unfold planUpdates
            rw [if_pos hmax]
          have hroute : routeFromPlan (planUpdates s).next_action = .complete := by
            rw [hpu]
            rfl
          rw [hroute, countPlan_complete svc orc f _ _]
          simp
          omega
        · have hpu2 := planUpdates_iter_max s
          have hb := ih (routeFromPlan (planUpdates s).next_action) (planUpdates s) c
            (by rw [hpu2.1, hpu2.2]; omega)
          rw [hpu2.1, hpu2.2] at hb
          simp
          omega
      · have hp := stepNode_iter_max svc orc n s c hplan
        have hb := ih (stepNode svc orc n s c).2.1 (stepNode svc orc n s c).1
          (stepNode svc orc n s c).2.2 (by rw [hp.1, hp.2]; exact h)
        rw [hp.1, hp.2] at hb
        rw [if_neg hplan]
        omega

/-- C5: the iteration budget bounds planning.  For any collaborators and
any fresh state with budget `N ≥ 1`: (1) a run executes the Plan node at
most `N + 1` times — at most `N` passes before the forcing one; (2) on
any state whose incremented counter exceeds the budget, Plan sets
`next_action` to complete and `is_complete` to true regardless of which
artifacts exist; (3) the final response surfaces whatever partial
artifacts are present (`_format_response` is total, no error raised). -/
theorem c5_plan_budget (svc : SvcCtx) (orc : Oracles) (s0 : AgentState)
    (h0 : s0.iteration = 0) (hN : 1 ≤ s0.max_iterations) :
    (∀ (fuel : Nat) (c : Counters),
      countNode .plan (runAux svc orc fuel .detect s0 c).2.2 ≤ s0.max_iterations + 1) ∧
    (∀ s : AgentState, s.max_iterations < s.iteration + 1 →
      (planUpdates s).next_action = "complete" ∧ (planUpdates s).is_complete = true) ∧
    (∀ s : AgentState, s.clarification_needed = false →
      (formatResponse s).sql = s.sql_query ∧
      (formatResponse s).explanation = s.explanation ∧
      (formatResponse s).results = s.execution_result ∧
      (formatResponse s).security_validation = s.security_validation) := by
  refine ⟨?_, ?_, ?_⟩
  · intro fuel c
    have hb := countPlan_le svc orc fuel .detect s0 c (by omega)
    omega
  · intro s hs
    unfold planUpdates
    rw [if_pos hs]
    exact ⟨rfl, rfl⟩
  · intro s hs
    simp [formatResponse, hs]

/-- Witness for C5: budget 1, well-behaved collaborators, fuel 12. -/
theorem c5_plan_budget_witness :
    s0Demo.iteration = 0 ∧ 1 ≤ s0Demo.max_iterations ∧
    countNode .plan (runAux svcDemo orcGood 12 .detect s0Demo {}).2.2
      ≤ s0Demo.max_iterations + 1 :=
  ⟨rfl, by decide,
   (c5_plan_budget svcDemo orcGood s0Demo rfl (by decide)).1 12 {}⟩

/-- C1 counterexample: budget 2, tenant 5, every generated SQL missing
the `client_id` filter (Presence fails).  The run's final response has
`success = true` — not false as claimed — while carrying the
security_validation object whose Client ID Filter check is FAIL. -/
theorem c1_counterexample :
    runNoFilter.1.success = true ∧
    runNoFilter.1.security_validation.map ValidationResult.passed = some false ∧
    runNoFilter.1.security_validation.map
        (fun v => v.checks.map (fun ch => (ch.name, ch.status)))
      = some [("Client ID Filter", "FAIL"), ("Single Client", "PASS"), ("Read-Only", "PASS")] := by
  decide

/-- C1 amended: when a generated SQL fails security validation (in
particular the Presence check), the generate-SQL node records the
failing security_validation object and an error and marks the state
complete, and the final response (non-clarification path) includes that
security_validation object — but reports `success = true`, not false:
`_format_response` sets `success: True` unconditionally outside the
clarification branch and never surfaces the stored error. -/
theorem c1_security_failure_response (svc : SvcCtx) (orc : Oracles) (s : AgentState)
    (c : Counters) (raw : String) (hgen : orc.genSql c.genN = .ok raw)
    (hfail : (validate_sql_for_client_isolation
        (ensureCorpIdFilter (extractSql raw) s.client_id) s.client_id
        svc.datasetCfg).passed = false) :
    (stepNode svc orc .generateSql s c
      = ({ s with
            error := some (securityFailMsg (validate_sql_for_client_isolation
              (ensureCorpIdFilter (extractSql raw) s.client_id) s.client_id svc.datasetCfg))
            security_validation := some (validate_sql_for_client_isolation
              (ensureCorpIdFilter (extractSql raw) s.client_id) s.client_id svc.datasetCfg)
            is_complete := true },
          .plan, { c with genN := c.genN + 1 })) ∧
    (∀ t : AgentState, t.clarification_needed = false →
      (formatResponse t).success = true ∧
      (formatResponse t).security_validation = t.security_validation) := by
  constructor
  · simp [stepNode, hgen, hfail]
  · intro t ht
    simp [formatResponse, ht]

/-- Witness for the amended C1: the concrete failing generation step. -/
theorem c1_security_failure_response_witness :
    stepNode svcDemo orcNoFilter .generateSql sGenDemo {}
      = ({ sGenDemo with
            error := some (securityFailMsg (validate_sql_for_client_isolation
              (ensureCorpIdFilter (extractSql "SELECT * FROM products") sGenDemo.client_id)
              sGenDemo.client_id svcDemo.datasetCfg))
            security_validation := some (validate_sql_for_client_isolation
              (ensureCorpIdFilter (extractSql "SELECT * FROM products") sGenDemo.client_id)
              sGenDemo.client_id svcDemo.datasetCfg)
            is_complete := true },
          .plan, { ({} : Counters) with genN := 1 }) :=
  (c1_security_failure_response svcDemo orcNoFilter sGenDemo {} "SELECT * FROM products"
    rfl (by decide)).1

/-- C6 evaluation: budget 3, schema fetch fine, every SQL-generation
call raising.  Contrary to the claim (and the code's own stated intent
of stopping the workflow), the recorded trace shows the generate-SQL
node executed twice and the Plan node four times — planning and
generation continue after the first failure — and the final response
reports `success = true` with no SQL, the generation error never being
surfaced. -/
theorem c6_generation_failure_not_fatal :
    countNode .generateSql runGenRaises.2.2 = 2 ∧
    countNode .plan runGenRaises.2.2 = 4 ∧
    runGenRaises.1.success = true ∧
    runGenRaises.1.sql = none := by
  decide
